import Mathlib

/-!
Shallow embedding of the construct builders of this repository
(ApplicationDynamoDBTable, ApplicationLoadBalancer, ApplicationRDSCluster).

Each builder is modelled as a pure function from its configuration to the
trace of declaration nodes it registers, paired with the error message of the
exception that aborted construction, if any.  A construction step that throws
keeps the nodes declared before the throw (matching a TypeScript constructor
that throws midway).  Computed attributes of declared resources (ARNs,
endpoints, unique ids) are values the external synthesis engine produces; they
are modelled as opaque token strings or as explicit parameters of the model.

Identifier note: the configuration field called `prefix` in the source is
rendered `pfx` here, and `namePrefix` is rendered `namePfx`.
-/

/-- Tags are string-to-string maps; the builders only pass them through. -/
abbrev Tags := List (String × String)

/-- JavaScript truthiness of an optional string (`undefined` and `""` are falsy). -/
def truthyStr : Option String → Bool
  | none => false
  | some s => s ≠ ""

/-- JavaScript `String.prototype.charAt`: the one-character string at index `i`,
or `""` when out of range. -/
def charAt (s : String) (i : Nat) : String :=
  match s.data.get? i with
  | some c => String.singleton c
  | none => ""

/-- JavaScript `String.prototype.includes`: substring containment. -/
def strIncludes (s pat : String) : Bool :=
  decide (pat.data <:+: s.data)

/-- JavaScript `String.prototype.toLowerCase` (character-wise ASCII model,
kernel-computable, unlike the library `String.toLower`). -/
def strToLower (s : String) : String :=
  String.mk (s.data.map Char.toLower)

/-- The trace of one builder run: the declaration nodes registered, and the
message of the exception that aborted it (`none` when construction succeeded). -/
abbrev Trace (N : Type) := List N × Option String

/-- Sequence two construction steps: if the first threw, the second never runs. -/
def Trace.seq {N : Type} (a b : Trace N) : Trace N :=
  match a with
  | (ns, some e) => (ns, some e)
  | (ns, none) => (ns ++ b.1, b.2)

/-- JavaScript `forEach` over a list where the body may throw: run the body on
each element in order, stopping at the first exception. -/
def traceForEach {N α : Type} (f : α → Trace N) : List α → Trace N
  | [] => ([], none)
  | x :: xs => Trace.seq (f x) (traceForEach f xs)

namespace DynamoDB

/-- `ApplicationDynamoDBTableCapacityType`. -/
inductive CapacityType where
  | Read
  | Write
deriving DecidableEq, Repr

/-- The string value of a capacity type. -/
def CapacityType.str : CapacityType → String
  | .Read => "ReadCapacity"
  | .Write => "WriteCapacity"

/-- `ApplicationDynamoDBTableCapacityMode`: on-demand is called
`PAY_PER_REQUEST` in Terraform and CloudFormation. -/
inductive CapacityMode where
  | PROVISIONED
  | ON_DEMAND
deriving DecidableEq, Repr

/-- `valueOf` of a capacity mode: its string enumeration value. -/
def CapacityMode.str : CapacityMode → String
  | .PROVISIONED => "PROVISIONED"
  | .ON_DEMAND => "PAY_PER_REQUEST"

/-- `Object.values(ApplicationDynamoDBTableStreamViewType)`. -/
def streamViewTypeValues : List String :=
  ["KEYS_ONLY", "NEW_IMAGE", "OLD_IMAGE", "NEW_AND_OLD_IMAGES"]

/-- `ApplicationDynamoDBTableAutoScaleProps`. -/
structure AutoScaleProps where
  tracking : Nat
  max : Nat
  min : Nat
deriving DecidableEq, Repr

/-- `DynamodbTableGlobalSecondaryIndex` (the provider fields the builder reads;
its other schema fields are unused here and omitted). -/
structure GlobalSecondaryIndex where
  name : String
  readCapacity : Option Nat
  writeCapacity : Option Nat
deriving DecidableEq, Repr

/-- `ApplicationDynamoDBTableConfig` (the provider fields the builder reads;
the rest of the table schema is passed through unchanged and omitted here).
`globalSecondaryIndex` is optional in the provider schema, hence `Option`. -/
structure TableConfig where
  streamEnabled : Option Bool := none
  streamViewType : Option String := none
  globalSecondaryIndex : Option (List GlobalSecondaryIndex) := none
deriving DecidableEq, Repr

/-- `ApplicationDynamoDBProps` (`prefix` rendered `pfx`). -/
structure Props where
  tags : Option Tags := none
  pfx : String
  tableConfig : TableConfig
  readCapacity : Option AutoScaleProps := none
  writeCapacity : Option AutoScaleProps := none
  capacityMode : Option CapacityMode := none
  preventDestroyTable : Option Bool := none
deriving DecidableEq, Repr

/-- One statement of an IAM policy document. -/
structure PolicyStatement where
  effect : String
  actions : List String
  resources : List String := []
  principals : List (String × List String) := []
deriving DecidableEq, Repr

/-- The declaration nodes the DynamoDB builder registers.  Each constructor
carries the construct name (`cname`) and the configuration fields the source
sets. -/
inductive Node where
  | dynamodbTable (cname : String) (tableConfig : TableConfig) (billingMode : String)
      (tags : Option Tags) (name : String) (ignoreChanges : List String)
      (preventDestroy : Bool)
  | dataAwsIamPolicyDocument (cname : String) (statements : List PolicyStatement)
  | iamPolicy (cname : String) (name : String) (policy : String)
  | iamRole (cname : String) (name : String) (tags : Option Tags) (assumeRolePolicy : String)
  | iamRolePolicyAttachment (cname : String) (policyArn : String) (role : String)
      (dependsOn : List String)
  | appautoscalingTarget (cname : String) (maxCapacity : Nat) (minCapacity : Option Nat)
      (resourceId : String) (scalableDimension : String) (roleArn : String)
      (serviceNamespace : String) (dependsOn : List String)
  | appautoscalingPolicy (cname : String) (name : String) (policyType : String)
      (resourceId : String) (scalableDimension : String) (serviceNamespace : String)
      (predefinedMetricType : String) (targetValue : Nat) (dependsOn : List String)
deriving DecidableEq, Repr

/-- Token standing for a computed attribute of a declared resource (the external
engine resolves it after apply); identified by construct name and attribute. -/
def attrToken (cname attr : String) : String :=
  "token:" ++ cname ++ "." ++ attr

/-- `ApplicationDynamoDBTable.validateStreamConfig`: if streams are enabled,
the stream view type must be present (truthy) and one of the valid values.
Returns the error message thrown, or `none`. -/
def validateStreamConfig (tableConfig : TableConfig) : Option String :=
  if tableConfig.streamEnabled = some true then
    if !truthyStr tableConfig.streamViewType then
      some "you must specify a stream view type if streams are enabled"
    else if !(streamViewTypeValues.contains (tableConfig.streamViewType.getD "")) then
      some "you must specify a valid stream view type"
    else
      none
  else
    none

/-- `ApplicationDynamoDBTable.createAutoScalingRole`: declares the autoscaling
IAM policy document, policy, assume-role document, role, and attachment; never
throws.  Returns the declared nodes and `role.arn`. -/
def createAutoScalingRole (capacityType : CapacityType) (pfx : String)
    (dynamoDBARN : String) (tags : Option Tags) : List Node × String :=
  let ct := capacityType.str
  let policyDoc := Node.dataAwsIamPolicyDocument (ct ++ "_policy_document")
    [ { effect := "Allow"
        actions := ["application-autoscaling:*", "cloudwatch:DescribeAlarms",
                    "cloudwatch:PutMetricAlarm"]
        resources := ["*"] },
      { effect := "Allow"
        actions := ["dynamodb:DescribeTable", "dynamodb:UpdateTable"]
        resources := [dynamoDBARN, dynamoDBARN ++ "*"] } ]
  let policy := Node.iamPolicy (ct ++ "_autoscaling_policy")
    (pfx ++ "-" ++ ct ++ "-AutoScalingPolicy")
    (attrToken (ct ++ "_policy_document") "json")
  let assumeDoc := Node.dataAwsIamPolicyDocument (ct ++ "_assume_role_policy_document")
    [ { effect := "Allow"
        actions := ["sts:AssumeRole"]
        principals := [("Service", ["application-autoscaling.amazonaws.com"])] } ]
  let role := Node.iamRole (ct ++ "_role") (pfx ++ "-" ++ ct ++ "-AutoScalingRole") tags
    (attrToken (ct ++ "_assume_role_policy_document") "json")
  let attachment := Node.iamRolePolicyAttachment (ct ++ "_role_attachment")
    (attrToken (ct ++ "_autoscaling_policy") "arn")
    (pfx ++ "-" ++ ct ++ "-AutoScalingRole")
    [ct ++ "_role", ct ++ "_autoscaling_policy"]
  ([policyDoc, policy, assumeDoc, role, attachment], attrToken (ct ++ "_role") "arn")

/-- The two values of the `policyTarget: 'table' | 'index'` parameter. -/
inductive PolicyTarget where
  | table
  | index
deriving DecidableEq, Repr

/-- The string value of a policy target. -/
def PolicyTarget.str : PolicyTarget → String
  | .table => "table"
  | .index => "index"

/-- `ApplicationDynamoDBTable.createAutoScalingPolicy`: declares an
autoscaling target and a target-tracking policy for the table or one index;
throws when targeting an index without a (truthy) index name. -/
def createAutoScalingPolicy (roleArn : String) (policyTarget : PolicyTarget)
    (capacityType : CapacityType) (minCapacity : Option Nat) (maxCapacity : Nat)
    (tracking : Nat) (tableName friendlyUniqueId : String)
    (indexName : Option String) : Trace Node :=
  let rid0 := "table/" ++ tableName
  let ridOrErr : Except String String :=
    match policyTarget with
    | .index =>
      if truthyStr indexName then
        .ok (rid0 ++ "/index/" ++ indexName.getD "")
      else
        .error "you must specify an indexName when creating an index auto scaling policy"
    | .table => .ok rid0
  match ridOrErr with
  | .error e => ([], some e)
  | .ok resourceId =>
    let constructPfx :=
      (if truthyStr indexName then indexName.getD "" else friendlyUniqueId)
        ++ "_" ++ capacityType.str ++ "_" ++ policyTarget.str
    let dim := "dynamodb:" ++ policyTarget.str ++ ":" ++ capacityType.str ++ "Units"
    let target := Node.appautoscalingTarget (constructPfx ++ "_target")
      maxCapacity minCapacity resourceId dim roleArn "dynamodb" ["dynamodb_table"]
    let policy := Node.appautoscalingPolicy (constructPfx ++ "_policy")
      ("DynamoDB" ++ capacityType.str ++ "Utilization:" ++ resourceId)
      "TargetTrackingScaling" resourceId dim "dynamodb"
      ("DynamoDB" ++ capacityType.str ++ "Utilization") tracking
      [constructPfx ++ "_target", "dynamodb_table"]
    ([target, policy], none)

/-- `ApplicationDynamoDBTable.setupAutoscaling` for one capacity dimension:
role, table policy, then one policy per global secondary index.  The source
casts the (optional) index list and reads `.length` without a guard, so an
absent list raises a TypeError (modelled message).  Per-index minimum capacity
comes from the index's own declared capacity for the dimension; max and
tracking come from the table-level spec. -/
def setupAutoscaling (pfx : String) (config : AutoScaleProps)
    (tableName tableArn friendlyUniqueId : String) (capacityType : CapacityType)
    (globalSecondaryIndexes : Option (List GlobalSecondaryIndex))
    (tags : Option Tags) : Trace Node :=
  let role := createAutoScalingRole capacityType pfx tableArn tags
  let roleNodes := role.1
  let roleArn := role.2
  let tableStep := createAutoScalingPolicy roleArn .table capacityType
    (some config.min) config.max config.tracking tableName friendlyUniqueId none
  let indexStep : Trace Node :=
    match globalSecondaryIndexes with
    | none => ([], some "TypeError: cannot read length of undefined")
    | some idxs =>
      if idxs.length ≠ 0 then
        traceForEach (fun gsIndex =>
          let minCapacity :=
            if capacityType = CapacityType.Read then gsIndex.readCapacity
            else gsIndex.writeCapacity
          createAutoScalingPolicy roleArn .index capacityType minCapacity
            config.max config.tracking tableName friendlyUniqueId (some gsIndex.name)) idxs
      else
        ([], none)
  Trace.seq (roleNodes, none) (Trace.seq tableStep indexStep)

/-- The table's `preventDestroy` lifecycle flag:
`config.preventDestroyTable !== false`, i.e. protected unless explicitly
disabled. -/
def resolvePreventDestroy : Option Bool → Bool
  | some false => false
  | _ => true

/-- `ApplicationDynamoDBTable` constructor: validate the stream config, declare
the table, then set up autoscaling for each supplied capacity dimension.
`friendlyUniqueId` is the engine-computed unique id of the table construct. -/
def construct (friendlyUniqueId : String) (config : Props) : Trace Node :=
  match validateStreamConfig config.tableConfig with
  | some e => ([], some e)
  | none =>
    let billingMode := (config.capacityMode.getD CapacityMode.PROVISIONED).str
    let tableNode := Node.dynamodbTable "dynamodb_table" config.tableConfig billingMode
      config.tags config.pfx ["read_capacity", "write_capacity"]
      (resolvePreventDestroy config.preventDestroyTable)
    let tableArn := attrToken "dynamodb_table" "arn"
    let readStep : Trace Node :=
      match config.readCapacity with
      | some rc => setupAutoscaling config.pfx rc config.pfx tableArn friendlyUniqueId
          CapacityType.Read config.tableConfig.globalSecondaryIndex config.tags
      | none => ([], none)
    let writeStep : Trace Node :=
      match config.writeCapacity with
      | some wc => setupAutoscaling config.pfx wc config.pfx tableArn friendlyUniqueId
          CapacityType.Write config.tableConfig.globalSecondaryIndex config.tags
      | none => ([], none)
    Trace.seq ([tableNode], none) (Trace.seq readStep writeStep)

/-- Summary of one autoscaling target: its scalable dimension, resource id and
capacity bounds. -/
structure TargetSummary where
  scalableDimension : String
  resourceId : String
  minCapacity : Option Nat
  maxCapacity : Nat
deriving DecidableEq, Repr

/-- Summary of one autoscaling policy: its scalable dimension, resource id and
tracking target value. -/
structure PolicySummary where
  scalableDimension : String
  resourceId : String
  targetValue : Nat
deriving DecidableEq, Repr

/-- Projection of a node to its autoscaling-target summary, when it is one. -/
def targetProj : Node → Option TargetSummary
  | .appautoscalingTarget _ maxC minC rid dim _ _ _ => some ⟨dim, rid, minC, maxC⟩
  | _ => none

/-- Projection of a node to its autoscaling-policy summary, when it is one. -/
def policyProj : Node → Option PolicySummary
  | .appautoscalingPolicy _ _ _ rid dim _ _ tv _ => some ⟨dim, rid, tv⟩
  | _ => none

/-- The autoscaling targets among a list of nodes. -/
def targetSummaries (ns : List Node) : List TargetSummary :=
  ns.filterMap targetProj

/-- The autoscaling policies among a list of nodes. -/
def policySummaries (ns : List Node) : List PolicySummary :=
  ns.filterMap policyProj

/-- The declared table node, as a function of the configuration. -/
def tableNodeOf (config : Props) : Node :=
  Node.dynamodbTable "dynamodb_table" config.tableConfig
    ((config.capacityMode.getD CapacityMode.PROVISIONED).str) config.tags config.pfx
    ["read_capacity", "write_capacity"] (resolvePreventDestroy config.preventDestroyTable)

/-- The summary of the table-level autoscaling target one dimension produces. -/
def tableTargetSummary (tableName : String) (ct : CapacityType)
    (cfg : AutoScaleProps) : TargetSummary :=
  { scalableDimension := "dynamodb:" ++ PolicyTarget.table.str ++ ":" ++ ct.str ++ "Units"
    resourceId := "table/" ++ tableName
    minCapacity := some cfg.min
    maxCapacity := cfg.max }

/-- The summary of the autoscaling target one dimension produces for one
secondary index: minimum from the index's own declared capacity, maximum from
the table-level spec. -/
def indexTargetSummary (tableName : String) (ct : CapacityType)
    (cfg : AutoScaleProps) (i : GlobalSecondaryIndex) : TargetSummary :=
  { scalableDimension := "dynamodb:" ++ PolicyTarget.index.str ++ ":" ++ ct.str ++ "Units"
    resourceId := "table/" ++ tableName ++ "/index/" ++ i.name
    minCapacity := if ct = CapacityType.Read then i.readCapacity else i.writeCapacity
    maxCapacity := cfg.max }

/-- The summary of the table-level scaling policy one dimension produces. -/
def tablePolicySummary (tableName : String) (ct : CapacityType)
    (cfg : AutoScaleProps) : PolicySummary :=
  { scalableDimension := "dynamodb:" ++ PolicyTarget.table.str ++ ":" ++ ct.str ++ "Units"
    resourceId := "table/" ++ tableName
    targetValue := cfg.tracking }

/-- The summary of the scaling policy one dimension produces for one secondary
index: tracking target inherited from the table-level spec. -/
def indexPolicySummary (tableName : String) (ct : CapacityType)
    (cfg : AutoScaleProps) (i : GlobalSecondaryIndex) : PolicySummary :=
  { scalableDimension := "dynamodb:" ++ PolicyTarget.index.str ++ ":" ++ ct.str ++ "Units"
    resourceId := "table/" ++ tableName ++ "/index/" ++ i.name
    targetValue := cfg.tracking }

/-- Whether a node is the table declaration itself. -/
def isTableNode : Node → Bool
  | .dynamodbTable _ _ _ _ _ _ _ => true
  | _ => false

/-- Projection of a node to its `preventDestroy` flag, when it is the table. -/
def preventProj : Node → Option Bool
  | .dynamodbTable _ _ _ _ _ _ pd => some pd
  | _ => none

/-- Projection of a node to its billing mode, when it is the table. -/
def billingProj : Node → Option String
  | .dynamodbTable _ _ bm _ _ _ _ => some bm
  | _ => none

/-- The `preventDestroy` lifecycle flags of the table nodes in a list. -/
def tablePreventDestroyFlags (ns : List Node) : List Bool :=
  ns.filterMap preventProj

/-- The billing modes of the table nodes in a list. -/
def tableBillingModes (ns : List Node) : List String :=
  ns.filterMap billingProj

end DynamoDB

namespace ALB

/-- One security group rule (the fields the builder sets that matter to the
boundary: ports, protocol, CIDR ranges). -/
structure SGRule where
  fromPort : Nat
  toPort : Nat
  protocol : String
  cidrBlocks : List String
deriving DecidableEq, Repr

/-- The `accessLogs` part of `ApplicationLoadBalancerProps`
(`prefix` rendered `pfx`). -/
structure AccessLogsProps where
  existingBucket : Option String := none
  bucket : Option String := none
  pfx : Option String := none
deriving DecidableEq, Repr

/-- `ApplicationLoadBalancerProps` (`prefix` rendered `pfx`). -/
structure Props where
  pfx : String
  alb6CharacterPfx : String
  vpcId : String
  subnetIds : List String
  internal : Option Bool := none
  accessLogs : Option AccessLogsProps := none
  tags : Option Tags := none
deriving DecidableEq, Repr

/-- The resolved `accessLogs` block of the load balancer. -/
structure AlbAccessLogs where
  bucket : String
  enabled : Bool
  pfx : String
deriving DecidableEq, Repr

/-- One statement of an IAM policy document. -/
structure PolicyStatement where
  effect : String
  actions : List String
  resources : List String := []
  principals : List (String × List String) := []
deriving DecidableEq, Repr

/-- The declaration nodes the load-balancer builder registers. -/
inductive Node where
  | securityGroup (cname : String) (namePfx : String) (vpcId : String)
      (ingress egress : List SGRule) (createBeforeDestroy : Bool)
  | dataAwsS3Bucket (cname : String) (bucket : String)
  | s3Bucket (cname : String) (bucket : Option String) (tags : Option Tags)
  | dataAwsElbServiceAccount (cname : String)
  | dataAwsIamPolicyDocument (cname : String) (statements : List PolicyStatement)
  | s3BucketPolicy (cname : String) (bucket : Option String) (policy : String)
  | alb (cname : String) (namePfx : String) (securityGroups : List String)
      (internal : Bool) (subnets : List String) (accessLogs : Option AlbAccessLogs)
deriving DecidableEq, Repr

/-- Token standing for a computed attribute of a declared resource. -/
def attrToken (cname attr : String) : String :=
  "token:" ++ cname ++ "." ++ attr

/-- `ApplicationLoadBalancer.getOrCreateBucket`: error when neither an existing
bucket nor a new bucket is configured; otherwise look up the existing bucket,
or create a new bucket with the access policy the load-balancing service needs.
Returns the declared nodes and, on success, the bucket name. -/
def getOrCreateBucket (existingBucket bucket : Option String) (tags : Option Tags) :
    List Node × Except String String :=
  if existingBucket = none ∧ bucket = none then
    ([], .error "If you are configuring access logs you need to define either an existing bucket or a new one to store the logs")
  else
    match existingBucket with
    | some eb => ([Node.dataAwsS3Bucket "log-bucket" eb], .ok eb)
    | none =>
      let b := bucket.getD ""
      let s3Nodes :=
        [ Node.s3Bucket "log-bucket" bucket tags,
          Node.dataAwsElbServiceAccount "elb-service-account",
          Node.dataAwsIamPolicyDocument "iam-log-bucket-policy-document"
            [ { effect := "Allow"
                actions := ["s3:PutObject"]
                resources := ["arn:aws:s3:::" ++ b ++ "/*"]
                principals :=
                  [("AWS", ["arn:aws:iam::" ++ attrToken "elb-service-account" "id" ++ ":root"])] } ],
          Node.s3BucketPolicy "log-bucket-policy" bucket
            (attrToken "iam-log-bucket-policy-document" "json") ]
      (s3Nodes, .ok b)

/-- The security group the load-balancer builder always declares first:
inbound TCP 443 and 80 from anywhere, all outbound, create-before-destroy. -/
def securityGroupNode (config : Props) : Node :=
  Node.securityGroup "alb_security_group" (config.pfx ++ "-HTTP/S Security Group")
    config.vpcId
    [ ⟨443, 443, "TCP", ["0.0.0.0/0"]⟩, ⟨80, 80, "TCP", ["0.0.0.0/0"]⟩ ]
    [ ⟨0, 0, "-1", ["0.0.0.0/0"]⟩ ]
    true

/-- The log prefix used when the access-log config supplies none. -/
def defaultLogPfx (pfx : String) : String :=
  "server-logs/" ++ strToLower pfx ++ "/alb"

/-- The source's rejection test on the resolved log prefix:
`prefix.charAt(prefix.length - 1) === '/' || prefix.charAt(0) === '/'`. -/
def logPfxInvalid (p : String) : Bool :=
  charAt p (p.length - 1) = "/" || charAt p 0 = "/"

/-- `ApplicationLoadBalancer` constructor: declare the security group, resolve
and validate the access-log config (default prefix, prefix shape check, bucket
choice), then declare the load balancer. -/
def construct (config : Props) : Trace Node :=
  let sg := securityGroupNode config
  let logsStep : Trace Node × Option AlbAccessLogs :=
    match config.accessLogs with
    | none => (([], none), none)
    | some al =>
      let p := al.pfx.getD (defaultLogPfx config.pfx)
      if logPfxInvalid p then
        (([], some "Logs prefix cannot start or end with '/'"), none)
      else
        match getOrCreateBucket al.existingBucket al.bucket config.tags with
        | (ns, .error e) => ((ns, some e), none)
        | (ns, .ok b) => ((ns, none), some ⟨b, true, p⟩)
  let albStep : Trace Node :=
    match logsStep.1.2 with
    | some _ => logsStep.1
    | none =>
      Trace.seq logsStep.1
        ([Node.alb "alb" config.alb6CharacterPfx [attrToken "alb_security_group" "id"]
            (config.internal.getD false) config.subnetIds logsStep.2], none)
  Trace.seq ([sg], none) albStep

/-- The `accessLogs` blocks of the load-balancer nodes in a list. -/
def albAccessLogsOf (ns : List Node) : List (Option AlbAccessLogs) :=
  ns.filterMap fun n =>
    match n with
    | .alb _ _ _ _ _ logs => some logs
    | _ => none

end ALB

namespace RDS

/-- One security group rule. -/
structure SGRule where
  fromPort : Nat
  toPort : Nat
  protocol : String
  cidrBlocks : List String
deriving DecidableEq, Repr

/-- `ApplicationRDSClusterConfig` (the provider fields the builder reads;
`port` is kept to show the secret's port does not come from it; the remaining
cluster schema is passed through unchanged and omitted here). -/
structure RdsClusterConfig where
  masterUsername : String
  masterPassword : Option String := none
  engine : Option String := none
  databaseName : Option String := none
  port : Option Nat := none
deriving DecidableEq, Repr

/-- `ApplicationRDSClusterProps` (`prefix` rendered `pfx`). -/
structure Props where
  pfx : String
  vpcId : String
  subnetIds : List String
  rdsConfig : RdsClusterConfig
  tags : Option Tags := none
deriving DecidableEq, Repr

/-- Computed attributes the external engine resolves for the declared
resources; opaque inputs of the model. -/
structure ComputedAttrs where
  vpcCidrBlock : String
  clusterIdentifier : String
  endpoint : String
  engineDefault : String
  databaseNameDefault : String
deriving DecidableEq, Repr

/-- The JSON payload stored in the initial secret version. -/
structure SecretPayload where
  engine : String
  host : String
  username : String
  password : String
  dbname : String
  port : Nat
  database_url : Option String := none
deriving DecidableEq, Repr

/-- The declaration nodes the RDS builder registers. -/
inductive Node where
  | dataAwsVpc (cname : String) (filterName : String) (filterValues : List String)
  | securityGroup (cname : String) (namePfx : String) (vpcId : String)
      (ingress egress : List SGRule)
  | dbSubnetGroup (cname : String) (namePfx : String) (subnetIds : List String)
  | rdsCluster (cname : String) (clusterIdentifierPfx : String)
      (copyTagsToSnapshot : Bool) (masterUsername : String) (masterPassword : String)
      (engine : Option String) (databaseName : Option String) (port : Option Nat)
      (vpcSecurityGroupIds : List String) (dbSubnetGroupName : String)
      (ignoreChanges : List String)
  | secretsmanagerSecret (cname : String) (name : String) (description : String)
      (dependsOn : List String)
  | secretsmanagerSecretVersion (cname : String) (secretId : String)
      (payload : SecretPayload) (dependsOn : List String)
deriving DecidableEq, Repr

/-- Token standing for a computed attribute of a declared resource. -/
def attrToken (cname attr : String) : String :=
  "token:" ++ cname ++ "." ++ attr

/-- Hex digit character for a nibble (lowercase, as `Buffer.toString('hex')`). -/
def hexDigit (n : Nat) : Char :=
  if n < 10 then Char.ofNat (48 + n) else Char.ofNat (87 + n)

/-- `Buffer.toString('hex')`: each byte becomes two lowercase hex digits,
high nibble first. -/
def hexEncode (bytes : List Nat) : String :=
  String.mk (bytes.flatMap fun b => [hexDigit (b / 16 % 16), hexDigit (b % 16)])

/-- Numeric value of a lowercase hex digit character (inverse of `hexDigit`,
used to reason about the encoding). -/
def hexVal (c : Char) : Nat :=
  if c.toNat ≥ 97 then c.toNat - 87 else c.toNat - 48

/-- Decode a hex character list two characters at a time (inverse of
`hexEncode`, used to reason about the encoding). -/
def hexDecode : List Char → List Nat
  | a :: b :: rest => (hexVal a * 16 + hexVal b) :: hexDecode rest
  | _ => []

/-- The port the builder derives from the engine: 5432 when the engine name
contains `postgresql` (`engine?.includes('postgresql')`), else 3306. -/
def derivePort (engine : Option String) : Nat :=
  match engine with
  | some e => if strIncludes e "postgresql" then 5432 else 3306
  | none => 3306

/-- `ApplicationRDSCluster.createRdsSecret`: the secret entry named
`<pfx>/<cluster identifier>` and its initial version holding the connection
payload; a `database_url` is added for the MySQL-compatible Aurora engine. -/
def createRdsSecret (rdsPort : Nat) (pfx : String) (engine : Option String)
    (clusterIdentifier endpoint masterUsername masterPassword dbname : String)
    (clusterEngine : String) : List Node × String :=
  let secret := Node.secretsmanagerSecret "rds_secret"
    (pfx ++ "/" ++ clusterIdentifier)
    ("Secret For " ++ clusterIdentifier)
    ["rds_cluster"]
  let baseValues : SecretPayload :=
    { engine := clusterEngine
      host := endpoint
      username := masterUsername
      password := masterPassword
      dbname := dbname
      port := rdsPort }
  let secretValues :=
    if truthyStr engine ∧ engine = some "aurora-mysql" then
      { baseValues with
        database_url := some ("mysql://" ++ masterUsername ++ ":" ++ masterPassword
          ++ "@" ++ endpoint ++ ":" ++ toString rdsPort ++ "/" ++ dbname) }
    else
      baseValues
  let version := Node.secretsmanagerSecretVersion "rds_secret_version"
    (attrToken "rds_secret" "id") secretValues ["rds_secret"]
  ([secret, version], attrToken "rds_secret" "arn")

/-- `ApplicationRDSCluster` constructor: VPC lookup, security group scoped to
the derived port and the VPC CIDR, subnet group, cluster (caller-supplied or
freshly generated hex password), then the secret and its version.  `randBytes`
models the 8 bytes `crypto.randomBytes(8)` draws for this construction call.
Returns the declared nodes and the secret ARN output. -/
def construct (attrs : ComputedAttrs) (randBytes : List Nat) (config : Props) :
    List Node × String :=
  let vpcNode := Node.dataAwsVpc "vpc" "vpc-id" [config.vpcId]
  let rdsPort := derivePort config.rdsConfig.engine
  let sg := Node.securityGroup "rds_security_group" config.pfx
    (attrToken "vpc" "id")
    [ ⟨rdsPort, rdsPort, "tcp", [attrs.vpcCidrBlock]⟩ ]
    [ ⟨0, 0, "-1", ["0.0.0.0/0"]⟩ ]
  let subnetGroup := Node.dbSubnetGroup "rds_subnet_group" (strToLower config.pfx)
    config.subnetIds
  let masterPassword :=
    config.rdsConfig.masterPassword.getD (hexEncode randBytes)
  let cluster := Node.rdsCluster "rds_cluster" (strToLower config.pfx) true
    config.rdsConfig.masterUsername masterPassword config.rdsConfig.engine
    config.rdsConfig.databaseName config.rdsConfig.port
    [attrToken "rds_security_group" "id"] (attrToken "rds_subnet_group" "name")
    ["master_username", "master_password"]
  let clusterEngine := config.rdsConfig.engine.getD attrs.engineDefault
  let dbname := config.rdsConfig.databaseName.getD attrs.databaseNameDefault
  let secretStep := createRdsSecret rdsPort config.pfx
    config.rdsConfig.engine attrs.clusterIdentifier attrs.endpoint
    config.rdsConfig.masterUsername masterPassword dbname clusterEngine
  ([vpcNode, sg, subnetGroup, cluster] ++ secretStep.1, secretStep.2)

/-- The master passwords of the cluster nodes in a list. -/
def clusterPasswords (ns : List Node) : List String :=
  ns.filterMap fun n =>
    match n with
    | .rdsCluster _ _ _ _ pw _ _ _ _ _ _ => some pw
    | _ => none

/-- The payloads of the secret-version nodes in a list. -/
def secretPayloads (ns : List Node) : List SecretPayload :=
  ns.filterMap fun n =>
    match n with
    | .secretsmanagerSecretVersion _ _ p _ => some p
    | _ => none

/-- The (ingress, egress) rule lists of the security-group nodes in a list. -/
def securityGroupRules (ns : List Node) : List (List SGRule × List SGRule) :=
  ns.filterMap fun n =>
    match n with
    | .securityGroup _ _ _ ing eg => some (ing, eg)
    | _ => none

end RDS

/-! ### Concrete example configurations used to instantiate the theorems -/

namespace DynamoDB

/-- Two-index table with both capacity dimensions (the spec's worked example:
tracking 70, max 10, min 1; indexes declare read 2 / write 3). -/
def exBothConfig : Props :=
  { pfx := "test-table"
    tableConfig :=
      { globalSecondaryIndex :=
          some [⟨"idx1", some 2, some 3⟩, ⟨"idx2", some 2, some 3⟩] }
    readCapacity := some ⟨70, 10, 1⟩
    writeCapacity := some ⟨70, 10, 1⟩ }

/-- On-demand mode combined with a read capacity spec (not rejected by the
code). -/
def exOnDemandWithCapacity : Props :=
  { pfx := "test-table"
    tableConfig := { globalSecondaryIndex := some [] }
    readCapacity := some ⟨70, 10, 1⟩
    capacityMode := some CapacityMode.ON_DEMAND }

/-- On-demand mode with no capacity specs. -/
def exOnDemandNoCapacity : Props :=
  { pfx := "test-table"
    tableConfig := {}
    capacityMode := some CapacityMode.ON_DEMAND }

/-- A read capacity spec with the secondary-index field left absent. -/
def exCapacityNoGsi : Props :=
  { pfx := "test-table"
    tableConfig := {}
    readCapacity := some ⟨70, 10, 1⟩ }

/-- A read capacity spec with a present but empty secondary-index list. -/
def exCapacityEmptyGsi : Props :=
  { pfx := "test-table"
    tableConfig := { globalSecondaryIndex := some [] }
    readCapacity := some ⟨70, 10, 1⟩ }

/-- Streaming enabled with an invalid stream view type. -/
def exStreamInvalid : Props :=
  { pfx := "test-table"
    tableConfig := { streamEnabled := some true, streamViewType := some "BOGUS" } }

/-- Destroy-protection explicitly disabled. -/
def exNoProtect : Props :=
  { pfx := "test-table"
    tableConfig := {}
    preventDestroyTable := some false }

end DynamoDB

namespace ALB

/-- Access logs with both an existing bucket and a new bucket configured. -/
def exBothBuckets : Props :=
  { pfx := "Svc"
    alb6CharacterPfx := "abc123"
    vpcId := "vpc-1"
    subnetIds := ["subnet-1", "subnet-2"]
    accessLogs := some { existingBucket := some "existing-bucket"
                         bucket := some "new-bucket" } }

/-- Access logs with a prefix that starts and ends with a slash. -/
def exSlashPfx : Props :=
  { pfx := "Svc"
    alb6CharacterPfx := "abc123"
    vpcId := "vpc-1"
    subnetIds := ["subnet-1"]
    accessLogs := some { existingBucket := some "existing-bucket"
                         pfx := some "/logs/" } }

end ALB

namespace RDS

/-- Concrete computed attributes for instantiating the RDS theorems. -/
def exAttrs : ComputedAttrs :=
  { vpcCidrBlock := "10.0.0.0/16"
    clusterIdentifier := "cluster-1"
    endpoint := "db.example.com"
    engineDefault := "aurora"
    databaseNameDefault := "defaultdb" }

/-- Eight concrete random bytes (0x01 23 45 67 89 ab cd ef). -/
def exBytes : List Nat := [1, 35, 69, 103, 137, 171, 205, 239]

/-- Cluster config with no caller-supplied master password. -/
def exNoPassword : Props :=
  { pfx := "App"
    vpcId := "vpc-1"
    subnetIds := ["subnet-1"]
    rdsConfig := { masterUsername := "admin" } }

/-- MySQL-compatible Aurora cluster config. -/
def exMysql : Props :=
  { pfx := "App"
    vpcId := "vpc-1"
    subnetIds := ["subnet-1"]
    rdsConfig := { masterUsername := "admin"
                   masterPassword := some "pw"
                   engine := some "aurora-mysql"
                   databaseName := some "mydb" } }

/-- Postgres-compatible Aurora cluster config with a caller-supplied `port`
(which the secret must ignore). -/
def exPostgres : Props :=
  { pfx := "App"
    vpcId := "vpc-1"
    subnetIds := ["subnet-1"]
    rdsConfig := { masterUsername := "admin"
                   engine := some "aurora-postgresql"
                   port := some 9999 } }

end RDS

/-! ### Basic facts about traces -/

theorem Trace.seq_mk_none {N : Type} (ns : List N) (b : Trace N) :
    Trace.seq (ns, none) b = (ns ++ b.1, b.2) := rfl

theorem Trace.seq_mk_some {N : Type} (ns : List N) (e : String) (b : Trace N) :
    Trace.seq (ns, some e) b = (ns, some e) := rfl

theorem Trace.seq_eq_append {N : Type} (a b : Trace N) (ha : a.2 = none) :
    Trace.seq a b = (a.1 ++ b.1, b.2) := by
  obtain ⟨ns, e⟩ := a
  cases e with
  | none => rfl
  | some e => simp at ha

theorem Trace.mem_seq {N : Type} {a b : Trace N} {n : N} (h : n ∈ (Trace.seq a b).1) :
    n ∈ a.1 ∨ n ∈ b.1 := by
  obtain ⟨ns, e⟩ := a
  cases e with
  | none => simpa using List.mem_append.mp (by simpa [Trace.seq] using h)
  | some e => exact Or.inl (by simpa [Trace.seq] using h)

theorem traceForEach_nil {N α : Type} (f : α → Trace N) : traceForEach f [] = ([], none) := rfl

theorem traceForEach_cons {N α : Type} (f : α → Trace N) (x : α) (xs : List α) :
    traceForEach f (x :: xs) = Trace.seq (f x) (traceForEach f xs) := rfl

/-- When no iteration throws, a `forEach` trace is the concatenation of the
per-element node lists. -/
theorem traceForEach_ok {N α : Type} (f : α → Trace N) (g : α → List N) (xs : List α)
    (h : ∀ x ∈ xs, f x = (g x, none)) :
    traceForEach f xs = (xs.flatMap g, none) := by
  induction xs with
  | nil => simp [traceForEach]
  | cons x xs ih =>
    rw [traceForEach_cons, h x (List.mem_cons_self x xs),
      ih (fun y hy => h y (List.mem_cons_of_mem _ hy))]
    simp [Trace.seq]

theorem traceForEach_mem {N α : Type} {P : N → Prop} (f : α → Trace N) (xs : List α)
    (h : ∀ x ∈ xs, ∀ n ∈ (f x).1, P n) :
    ∀ n ∈ (traceForEach f xs).1, P n := by
  induction xs with
  | nil => simp [traceForEach]
  | cons x xs ih =>
    intro n hn
    rw [traceForEach_cons] at hn
    rcases Trace.mem_seq hn with hx | hrest
    · exact h x (List.mem_cons_self x xs) n hx
    · exact ih (fun y hy => h y (List.mem_cons_of_mem _ hy)) n hrest

/-- `filterMap` over a `flatMap` where each block contributes exactly one
element. -/
theorem filterMap_flatMap_eq_map {α β γ : Type} (p : α → List β) (f : β → Option γ)
    (q : α → γ) (xs : List α) (h : ∀ x ∈ xs, (p x).filterMap f = [q x]) :
    (xs.flatMap p).filterMap f = xs.map q := by
  induction xs with
  | nil => simp
  | cons x xs ih =>
    simp only [List.flatMap_cons, List.filterMap_append, List.map_cons,
      h x (List.mem_cons_self x xs),
      ih (fun y hy => h y (List.mem_cons_of_mem _ hy))]
    rfl

/-! ### DynamoDB builder lemmas -/

namespace DynamoDB

theorem createAutoScalingPolicy_table_snd (roleArn : String) (ct : CapacityType)
    (minC : Option Nat) (maxC tr : Nat) (tn fuid : String) :
    (createAutoScalingPolicy roleArn .table ct minC maxC tr tn fuid none).2 = none := rfl

theorem createAutoScalingPolicy_index_ok (roleArn : String) (ct : CapacityType)
    (minC : Option Nat) (maxC tr : Nat) (tn fuid nm : String) (h : nm ≠ "") :
    (createAutoScalingPolicy roleArn .index ct minC maxC tr tn fuid (some nm)).2 = none := by
  simp [createAutoScalingPolicy, truthyStr, h]

/-- The guard `if (castedGlobalSecondaryIndexes.length)` is equivalent to the
plain iteration, since iterating an empty list does nothing. -/
theorem length_guard_eq {N α : Type} (f : α → Trace N) (idxs : List α) :
    (if idxs.length ≠ 0 then traceForEach f idxs else ([], none)) = traceForEach f idxs := by
  cases idxs <;> simp [traceForEach]

/-- `setupAutoscaling` with a present index list whose names are all nonempty:
the role nodes, the table target/policy, then one target/policy per index, and
no exception. -/
theorem setupAutoscaling_some (pfx : String) (cfg : AutoScaleProps)
    (tn ta fuid : String) (ct : CapacityType) (idxs : List GlobalSecondaryIndex)
    (tags : Option Tags) (h : ∀ i ∈ idxs, i.name ≠ "") :
    setupAutoscaling pfx cfg tn ta fuid ct (some idxs) tags =
      ((createAutoScalingRole ct pfx ta tags).1
        ++ ((createAutoScalingPolicy (createAutoScalingRole ct pfx ta tags).2 .table ct
              (some cfg.min) cfg.max cfg.tracking tn fuid none).1
          ++ idxs.flatMap (fun i =>
              (createAutoScalingPolicy (createAutoScalingRole ct pfx ta tags).2 .index ct
                (if ct = CapacityType.Read then i.readCapacity else i.writeCapacity)
                cfg.max cfg.tracking tn fuid (some i.name)).1)),
       none) := by
  simp only [setupAutoscaling]
  rw [length_guard_eq]
  rw [traceForEach_ok _ (fun i =>
      (createAutoScalingPolicy (createAutoScalingRole ct pfx ta tags).2 .index ct
        (if ct = CapacityType.Read then i.readCapacity else i.writeCapacity)
        cfg.max cfg.tracking tn fuid (some i.name)).1) idxs ?ok]
  case ok =>
    intro i hi
    have h2 := createAutoScalingPolicy_index_ok (createAutoScalingRole ct pfx ta tags).2 ct
      (if ct = CapacityType.Read then i.readCapacity else i.writeCapacity)
      cfg.max cfg.tracking tn fuid i.name (h i hi)
    exact Prod.ext rfl h2
  have h1 := createAutoScalingPolicy_table_snd (createAutoScalingRole ct pfx ta tags).2 ct
    (some cfg.min) cfg.max cfg.tracking tn fuid
  rw [show (createAutoScalingPolicy (createAutoScalingRole ct pfx ta tags).2 .table ct
      (some cfg.min) cfg.max cfg.tracking tn fuid none) =
      ((createAutoScalingPolicy (createAutoScalingRole ct pfx ta tags).2 .table ct
        (some cfg.min) cfg.max cfg.tracking tn fuid none).1, none) from Prod.ext rfl h1]
  simp [Trace.seq]

theorem targetSummaries_append (a b : List Node) :
    targetSummaries (a ++ b) = targetSummaries a ++ targetSummaries b := by
  simp [targetSummaries, List.filterMap_append]

theorem policySummaries_append (a b : List Node) :
    policySummaries (a ++ b) = policySummaries a ++ policySummaries b := by
  simp [policySummaries, List.filterMap_append]

theorem targetSummaries_role (ct : CapacityType) (pfx ta : String) (tags : Option Tags) :
    targetSummaries (createAutoScalingRole ct pfx ta tags).1 = [] := rfl

theorem policySummaries_role (ct : CapacityType) (pfx ta : String) (tags : Option Tags) :
    policySummaries (createAutoScalingRole ct pfx ta tags).1 = [] := rfl

theorem targetSummaries_table_pair (roleArn : String) (ct : CapacityType)
    (cfg : AutoScaleProps) (tn fuid : String) :
    targetSummaries (createAutoScalingPolicy roleArn .table ct (some cfg.min) cfg.max
      cfg.tracking tn fuid none).1 = [tableTargetSummary tn ct cfg] := rfl

theorem policySummaries_table_pair (roleArn : String) (ct : CapacityType)
    (cfg : AutoScaleProps) (tn fuid : String) :
    policySummaries (createAutoScalingPolicy roleArn .table ct (some cfg.min) cfg.max
      cfg.tracking tn fuid none).1 = [tablePolicySummary tn ct cfg] := rfl

theorem targetSummaries_index_pair (roleArn : String) (ct : CapacityType)
    (cfg : AutoScaleProps) (tn fuid : String) (i : GlobalSecondaryIndex) (h : i.name ≠ "") :
    targetSummaries (createAutoScalingPolicy roleArn .index ct
      (if ct = CapacityType.Read then i.readCapacity else i.writeCapacity)
      cfg.max cfg.tracking tn fuid (some i.name)).1 = [indexTargetSummary tn ct cfg i] := by
  simp [createAutoScalingPolicy, truthyStr, h, targetSummaries, targetProj,
    indexTargetSummary, Option.getD]

theorem policySummaries_index_pair (roleArn : String) (ct : CapacityType)
    (cfg : AutoScaleProps) (tn fuid : String) (i : GlobalSecondaryIndex) (h : i.name ≠ "") :
    policySummaries (createAutoScalingPolicy roleArn .index ct
      (if ct = CapacityType.Read then i.readCapacity else i.writeCapacity)
      cfg.max cfg.tracking tn fuid (some i.name)).1 = [indexPolicySummary tn ct cfg i] := by
  simp [createAutoScalingPolicy, truthyStr, h, policySummaries, policyProj,
    indexPolicySummary, Option.getD]

/-- Target summaries of one capacity dimension's autoscaling setup: the table
target, then one target per index. -/
theorem setup_targetSummaries (pfx : String) (cfg : AutoScaleProps) (tn ta fuid : String)
    (ct : CapacityType) (idxs : List GlobalSecondaryIndex) (tags : Option Tags)
    (h : ∀ i ∈ idxs, i.name ≠ "") :
    targetSummaries (setupAutoscaling pfx cfg tn ta fuid ct (some idxs) tags).1 =
      tableTargetSummary tn ct cfg :: idxs.map (indexTargetSummary tn ct cfg) := by
  rw [setupAutoscaling_some pfx cfg tn ta fuid ct idxs tags h]
  show targetSummaries (_ ++ (_ ++ _)) = _
  rw [targetSummaries_append, targetSummaries_append, targetSummaries_role,
    targetSummaries_table_pair]
  show [] ++ ([tableTargetSummary tn ct cfg] ++ targetSummaries _) = _
  rw [show targetSummaries (idxs.flatMap fun i =>
      (createAutoScalingPolicy (createAutoScalingRole ct pfx ta tags).2 .index ct
        (if ct = CapacityType.Read then i.readCapacity else i.writeCapacity)
        cfg.max cfg.tracking tn fuid (some i.name)).1) =
      idxs.map (indexTargetSummary tn ct cfg) from
    filterMap_flatMap_eq_map _ _ _ idxs (fun i hi =>
      targetSummaries_index_pair (createAutoScalingRole ct pfx ta tags).2 ct cfg tn fuid i (h i hi))]
  simp

/-- Policy summaries of one capacity dimension's autoscaling setup: the table
policy, then one policy per index. -/
theorem setup_policySummaries (pfx : String) (cfg : AutoScaleProps) (tn ta fuid : String)
    (ct : CapacityType) (idxs : List GlobalSecondaryIndex) (tags : Option Tags)
    (h : ∀ i ∈ idxs, i.name ≠ "") :
    policySummaries (setupAutoscaling pfx cfg tn ta fuid ct (some idxs) tags).1 =
      tablePolicySummary tn ct cfg :: idxs.map (indexPolicySummary tn ct cfg) := by
  rw [setupAutoscaling_some pfx cfg tn ta fuid ct idxs tags h]
  show policySummaries (_ ++ (_ ++ _)) = _
  rw [policySummaries_append, policySummaries_append, policySummaries_role,
    policySummaries_table_pair]
  show [] ++ ([tablePolicySummary tn ct cfg] ++ policySummaries _) = _
  rw [show policySummaries (idxs.flatMap fun i =>
      (createAutoScalingPolicy (createAutoScalingRole ct pfx ta tags).2 .index ct
        (if ct = CapacityType.Read then i.readCapacity else i.writeCapacity)
        cfg.max cfg.tracking tn fuid (some i.name)).1) =
      idxs.map (indexPolicySummary tn ct cfg) from
    filterMap_flatMap_eq_map _ _ _ idxs (fun i hi =>
      policySummaries_index_pair (createAutoScalingRole ct pfx ta tags).2 ct cfg tn fuid i (h i hi))]
  simp

theorem billingProj_of_not_table {n : Node} (h : isTableNode n = false) :
    billingProj n = none := by
  cases n <;> simp_all [isTableNode, billingProj]

theorem preventProj_of_not_table {n : Node} (h : isTableNode n = false) :
    preventProj n = none := by
  cases n <;> simp_all [isTableNode, preventProj]

theorem createAutoScalingPolicy_no_table (roleArn : String) (pt : PolicyTarget)
    (ct : CapacityType) (minC : Option Nat) (maxC tr : Nat) (tn fuid : String)
    (inm : Option String) :
    ∀ n ∈ (createAutoScalingPolicy roleArn pt ct minC maxC tr tn fuid inm).1,
      isTableNode n = false := by
  intro n hn
  simp only [createAutoScalingPolicy] at hn
  rcases pt with _ | _ <;> by_cases h : truthyStr inm = true <;>
    simp [h, isTableNode] at hn <;> rcases hn with h1 | h1 <;> simp [h1, isTableNode]

theorem createAutoScalingRole_no_table (ct : CapacityType) (pfx ta : String)
    (tags : Option Tags) :
    ∀ n ∈ (createAutoScalingRole ct pfx ta tags).1, isTableNode n = false := by
  intro n hn
  simp only [createAutoScalingRole, List.mem_cons, List.not_mem_nil, or_false] at hn
  rcases hn with rfl | rfl | rfl | rfl | rfl <;> rfl

/-- No autoscaling setup step ever declares a table node, whatever the index
list looks like (present, absent, empty). -/
theorem setupAutoscaling_no_table (pfx : String) (cfg : AutoScaleProps)
    (tn ta fuid : String) (ct : CapacityType)
    (g : Option (List GlobalSecondaryIndex)) (tags : Option Tags) :
    ∀ n ∈ (setupAutoscaling pfx cfg tn ta fuid ct g tags).1, isTableNode n = false := by
  cases g with
  | none =>
    intro n hn
    simp only [setupAutoscaling] at hn
    rcases Trace.mem_seq hn with h1 | h1
    · exact createAutoScalingRole_no_table ct pfx ta tags n h1
    · rcases Trace.mem_seq h1 with h2 | h2
      · exact createAutoScalingPolicy_no_table _ _ _ _ _ _ _ _ _ n h2
      · simp at h2
  | some idxs =>
    intro n hn
    simp only [setupAutoscaling] at hn
    rw [length_guard_eq] at hn
    rcases Trace.mem_seq hn with h1 | h1
    · exact createAutoScalingRole_no_table ct pfx ta tags n h1
    · rcases Trace.mem_seq h1 with h2 | h2
      · exact createAutoScalingPolicy_no_table _ _ _ _ _ _ _ _ _ n h2
      · exact traceForEach_mem _ idxs
          (fun i _ m hm => createAutoScalingPolicy_no_table _ _ _ _ _ _ _ _ _ m hm) n h2

/-- Once stream validation passes, construction is the table declaration
followed by the two optional autoscaling steps. -/
theorem construct_eq_seq (fuid : String) (config : Props)
    (hv : validateStreamConfig config.tableConfig = none) :
    construct fuid config =
      Trace.seq ([tableNodeOf config], none)
        (Trace.seq
          (match config.readCapacity with
           | some rc => setupAutoscaling config.pfx rc config.pfx
               (attrToken "dynamodb_table" "arn") fuid CapacityType.Read
               config.tableConfig.globalSecondaryIndex config.tags
           | none => ([], none))
          (match config.writeCapacity with
           | some wc => setupAutoscaling config.pfx wc config.pfx
               (attrToken "dynamodb_table" "arn") fuid CapacityType.Write
               config.tableConfig.globalSecondaryIndex config.tags
           | none => ([], none))) := by
  simp only [construct, hv, tableNodeOf]

/-- With no capacity spec at all, construction declares exactly the table. -/
theorem construct_no_capacity (fuid : String) (config : Props)
    (hv : validateStreamConfig config.tableConfig = none)
    (hr : config.readCapacity = none) (hw : config.writeCapacity = none) :
    construct fuid config = ([tableNodeOf config], none) := by
  rw [construct_eq_seq fuid config hv, hr, hw]
  rfl

theorem capacityStep_no_table (fuid : String) (config : Props)
    (rcOpt : Option AutoScaleProps) (ct : CapacityType) :
    ∀ n ∈ (match rcOpt with
           | some rc => setupAutoscaling config.pfx rc config.pfx
               (attrToken "dynamodb_table" "arn") fuid ct
               config.tableConfig.globalSecondaryIndex config.tags
           | none => (([], none) : Trace Node)).1, isTableNode n = false := by
  cases rcOpt with
  | none => simp
  | some rc => exact setupAutoscaling_no_table _ _ _ _ _ _ _ _

/-- The table projections of a successful-validation construction: exactly one
table node, carrying the resolved billing mode and destroy-protection flag. -/
theorem construct_table_projections (fuid : String) (config : Props)
    (hv : validateStreamConfig config.tableConfig = none) :
    tableBillingModes (construct fuid config).1 =
      [(config.capacityMode.getD CapacityMode.PROVISIONED).str] ∧
    tablePreventDestroyFlags (construct fuid config).1 =
      [resolvePreventDestroy config.preventDestroyTable] := by
  rw [construct_eq_seq fuid config hv, Trace.seq_mk_none]
  have hrest : ∀ n ∈ (Trace.seq
      (match config.readCapacity with
       | some rc => setupAutoscaling config.pfx rc config.pfx
           (attrToken "dynamodb_table" "arn") fuid CapacityType.Read
           config.tableConfig.globalSecondaryIndex config.tags
       | none => ([], none))
      (match config.writeCapacity with
       | some wc => setupAutoscaling config.pfx wc config.pfx
           (attrToken "dynamodb_table" "arn") fuid CapacityType.Write
           config.tableConfig.globalSecondaryIndex config.tags
       | none => ([], none))).1, isTableNode n = false := by
    intro n hn
    rcases Trace.mem_seq hn with h1 | h1
    · exact capacityStep_no_table fuid config config.readCapacity CapacityType.Read n h1
    · exact capacityStep_no_table fuid config config.writeCapacity CapacityType.Write n h1
  constructor
  · show List.filterMap billingProj ([tableNodeOf config] ++ _) = _
    rw [List.filterMap_append]
    rw [List.filterMap_eq_nil_iff.mpr (fun n hn => billingProj_of_not_table (hrest n hn))]
    rfl
  · show List.filterMap preventProj ([tableNodeOf config] ++ _) = _
    rw [List.filterMap_append]
    rw [List.filterMap_eq_nil_iff.mpr (fun n hn => preventProj_of_not_table (hrest n hn))]
    rfl

/-- With both capacity specs and a present index list with nonempty names,
construction succeeds and the target/policy summaries are fully determined. -/
theorem construct_both_summaries (fuid : String) (config : Props)
    (r w : AutoScaleProps) (idxs : List GlobalSecondaryIndex)
    (hv : validateStreamConfig config.tableConfig = none)
    (hr : config.readCapacity = some r) (hw : config.writeCapacity = some w)
    (hg : config.tableConfig.globalSecondaryIndex = some idxs)
    (hn : ∀ i ∈ idxs, i.name ≠ "") :
    (construct fuid config).2 = none ∧
    targetSummaries (construct fuid config).1 =
      (tableTargetSummary config.pfx CapacityType.Read r
        :: idxs.map (indexTargetSummary config.pfx CapacityType.Read r))
      ++ (tableTargetSummary config.pfx CapacityType.Write w
        :: idxs.map (indexTargetSummary config.pfx CapacityType.Write w)) ∧
    policySummaries (construct fuid config).1 =
      (tablePolicySummary config.pfx CapacityType.Read r
        :: idxs.map (indexPolicySummary config.pfx CapacityType.Read r))
      ++ (tablePolicySummary config.pfx CapacityType.Write w
        :: idxs.map (indexPolicySummary config.pfx CapacityType.Write w)) := by
  rw [construct_eq_seq fuid config hv, hr, hw, hg]
  have hsr := setupAutoscaling_some config.pfx r config.pfx
    (attrToken "dynamodb_table" "arn") fuid CapacityType.Read idxs config.tags hn
  have hsw := setupAutoscaling_some config.pfx w config.pfx
    (attrToken "dynamodb_table" "arn") fuid CapacityType.Write idxs config.tags hn
  have htr := setup_targetSummaries config.pfx r config.pfx
    (attrToken "dynamodb_table" "arn") fuid CapacityType.Read idxs config.tags hn
  have htw := setup_targetSummaries config.pfx w config.pfx
    (attrToken "dynamodb_table" "arn") fuid CapacityType.Write idxs config.tags hn
  have hpr := setup_policySummaries config.pfx r config.pfx
    (attrToken "dynamodb_table" "arn") fuid CapacityType.Read idxs config.tags hn
  have hpw := setup_policySummaries config.pfx w config.pfx
    (attrToken "dynamodb_table" "arn") fuid CapacityType.Write idxs config.tags hn
  rw [Trace.seq_eq_append
      (setupAutoscaling config.pfx r config.pfx (attrToken "dynamodb_table" "arn") fuid
        CapacityType.Read (some idxs) config.tags)
      (setupAutoscaling config.pfx w config.pfx (attrToken "dynamodb_table" "arn") fuid
        CapacityType.Write (some idxs) config.tags)
      (by rw [hsr]), Trace.seq_mk_none]
  refine ⟨by rw [hsw], ?_, ?_⟩
  · show targetSummaries ([tableNodeOf config] ++ _) = _
    rw [targetSummaries_append, targetSummaries_append, htr, htw]
    rfl
  · show policySummaries ([tableNodeOf config] ++ _) = _
    rw [policySummaries_append, policySummaries_append, hpr, hpw]
    rfl

end DynamoDB

/-! ### Claims -/

namespace DynamoDB

/-- C1: for every configuration supplying both a read and a write capacity
spec on a table with a (present) list of secondary indexes, each capacity
dimension independently produces exactly one autoscaling target and policy
for the table and one per secondary index; every index target's minimum
capacity is that index's own declared capacity for the dimension, while its
maximum capacity and tracking target are inherited from the table-level
spec. -/
theorem claim_C1 (fuid : String) (config : Props) (r w : AutoScaleProps)
    (idxs : List GlobalSecondaryIndex)
    (hv : validateStreamConfig config.tableConfig = none)
    (hr : config.readCapacity = some r) (hw : config.writeCapacity = some w)
    (hg : config.tableConfig.globalSecondaryIndex = some idxs)
    (hn : ∀ i ∈ idxs, i.name ≠ "") :
    (construct fuid config).2 = none ∧
    targetSummaries (construct fuid config).1 =
      (tableTargetSummary config.pfx CapacityType.Read r
        :: idxs.map (indexTargetSummary config.pfx CapacityType.Read r))
      ++ (tableTargetSummary config.pfx CapacityType.Write w
        :: idxs.map (indexTargetSummary config.pfx CapacityType.Write w)) ∧
    policySummaries (construct fuid config).1 =
      (tablePolicySummary config.pfx CapacityType.Read r
        :: idxs.map (indexPolicySummary config.pfx CapacityType.Read r))
      ++ (tablePolicySummary config.pfx CapacityType.Write w
        :: idxs.map (indexPolicySummary config.pfx CapacityType.Write w)) :=
  construct_both_summaries fuid config r w idxs hv hr hw hg hn

/-- C1 witness: the spec's worked example (two indexes, both dimensions)
yields two table targets/policies and four index targets/policies. -/
theorem claim_C1_witness :
    (validateStreamConfig exBothConfig.tableConfig = none ∧
     exBothConfig.readCapacity = some ⟨70, 10, 1⟩ ∧
     exBothConfig.writeCapacity = some ⟨70, 10, 1⟩ ∧
     exBothConfig.tableConfig.globalSecondaryIndex =
       some [⟨"idx1", some 2, some 3⟩, ⟨"idx2", some 2, some 3⟩] ∧
     (∀ i ∈ ([⟨"idx1", some 2, some 3⟩, ⟨"idx2", some 2, some 3⟩] :
        List GlobalSecondaryIndex), i.name ≠ "")) ∧
    ((construct "dynamodb_table" exBothConfig).2 = none ∧
     targetSummaries (construct "dynamodb_table" exBothConfig).1 =
       (tableTargetSummary exBothConfig.pfx CapacityType.Read ⟨70, 10, 1⟩
         :: ([⟨"idx1", some 2, some 3⟩, ⟨"idx2", some 2, some 3⟩] :
            List GlobalSecondaryIndex).map
              (indexTargetSummary exBothConfig.pfx CapacityType.Read ⟨70, 10, 1⟩))
       ++ (tableTargetSummary exBothConfig.pfx CapacityType.Write ⟨70, 10, 1⟩
         :: ([⟨"idx1", some 2, some 3⟩, ⟨"idx2", some 2, some 3⟩] :
            List GlobalSecondaryIndex).map
              (indexTargetSummary exBothConfig.pfx CapacityType.Write ⟨70, 10, 1⟩)) ∧
     policySummaries (construct "dynamodb_table" exBothConfig).1 =
       (tablePolicySummary exBothConfig.pfx CapacityType.Read ⟨70, 10, 1⟩
         :: ([⟨"idx1", some 2, some 3⟩, ⟨"idx2", some 2, some 3⟩] :
            List GlobalSecondaryIndex).map
              (indexPolicySummary exBothConfig.pfx CapacityType.Read ⟨70, 10, 1⟩))
       ++ (tablePolicySummary exBothConfig.pfx CapacityType.Write ⟨70, 10, 1⟩
         :: ([⟨"idx1", some 2, some 3⟩, ⟨"idx2", some 2, some 3⟩] :
            List GlobalSecondaryIndex).map
              (indexPolicySummary exBothConfig.pfx CapacityType.Write ⟨70, 10, 1⟩))) :=
  ⟨⟨by decide, rfl, rfl, rfl, by decide⟩,
   claim_C1 "dynamodb_table" exBothConfig ⟨70, 10, 1⟩ ⟨70, 10, 1⟩
     [⟨"idx1", some 2, some 3⟩, ⟨"idx2", some 2, some 3⟩]
     (by decide) rfl rfl rfl (by decide)⟩

/-- C4 counterexample: a configuration with `capacityMode = ON_DEMAND` and a
read capacity spec constructs successfully and still receives an autoscaling
target and policy — the code does not enforce the claimed mutual exclusion. -/
theorem claim_C4_counterexample :
    exOnDemandWithCapacity.capacityMode = some CapacityMode.ON_DEMAND ∧
    (construct "dynamodb_table" exOnDemandWithCapacity).2 = none ∧
    tableBillingModes (construct "dynamodb_table" exOnDemandWithCapacity).1 =
      ["PAY_PER_REQUEST"] ∧
    targetSummaries (construct "dynamodb_table" exOnDemandWithCapacity).1 =
      [tableTargetSummary "test-table" CapacityType.Read ⟨70, 10, 1⟩] ∧
    policySummaries (construct "dynamodb_table" exOnDemandWithCapacity).1 =
      [tablePolicySummary "test-table" CapacityType.Read ⟨70, 10, 1⟩] := by
  decide

/-- C4 (amended): with `capacityMode = ON_DEMAND` the table's billing mode is
`PAY_PER_REQUEST` (and `PROVISIONED` when the mode is absent), and when no
capacity specs are supplied no autoscaling resources are created; the mutual
exclusion of capacity specs with on-demand mode is a documented caller
obligation, not enforced by the code. -/
theorem claim_C4 (fuid : String) (config : Props)
    (hv : validateStreamConfig config.tableConfig = none) :
    (config.capacityMode = some CapacityMode.ON_DEMAND →
      tableBillingModes (construct fuid config).1 = ["PAY_PER_REQUEST"]) ∧
    (config.capacityMode = none →
      tableBillingModes (construct fuid config).1 = ["PROVISIONED"]) ∧
    (config.readCapacity = none → config.writeCapacity = none →
      (construct fuid config).2 = none ∧
      targetSummaries (construct fuid config).1 = [] ∧
      policySummaries (construct fuid config).1 = []) := by
  refine ⟨?_, ?_, ?_⟩
  · intro hm
    rw [(construct_table_projections fuid config hv).1, hm]
    rfl
  · intro hm
    rw [(construct_table_projections fuid config hv).1, hm]
    rfl
  · intro hr hw
    rw [construct_no_capacity fuid config hv hr hw]
    exact ⟨rfl, rfl, rfl⟩

/-- C4 witness: an on-demand configuration with no capacity specs. -/
theorem claim_C4_witness :
    (validateStreamConfig exOnDemandNoCapacity.tableConfig = none) ∧
    ((exOnDemandNoCapacity.capacityMode = some CapacityMode.ON_DEMAND →
      tableBillingModes (construct "dynamodb_table" exOnDemandNoCapacity).1 =
        ["PAY_PER_REQUEST"]) ∧
    (exOnDemandNoCapacity.capacityMode = none →
      tableBillingModes (construct "dynamodb_table" exOnDemandNoCapacity).1 =
        ["PROVISIONED"]) ∧
    (exOnDemandNoCapacity.readCapacity = none →
      exOnDemandNoCapacity.writeCapacity = none →
      (construct "dynamodb_table" exOnDemandNoCapacity).2 = none ∧
      targetSummaries (construct "dynamodb_table" exOnDemandNoCapacity).1 = [] ∧
      policySummaries (construct "dynamodb_table" exOnDemandNoCapacity).1 = [])) :=
  ⟨by decide, claim_C4 "dynamodb_table" exOnDemandNoCapacity (by decide)⟩

/-- C5 (code bug): with a capacity spec and the secondary-index field simply
absent from the table config, construction throws a TypeError (the source
casts the optional index list and reads `.length` without a guard); with a
present-but-empty index list the same configuration succeeds and creates
exactly the table-level target and policy. -/
theorem claim_C5 :
    (construct "dynamodb_table" exCapacityNoGsi).2 =
      some "TypeError: cannot read length of undefined" ∧
    (construct "dynamodb_table" exCapacityEmptyGsi).2 = none ∧
    targetSummaries (construct "dynamodb_table" exCapacityEmptyGsi).1 =
      [tableTargetSummary "test-table" CapacityType.Read ⟨70, 10, 1⟩] ∧
    policySummaries (construct "dynamodb_table" exCapacityEmptyGsi).1 =
      [tablePolicySummary "test-table" CapacityType.Read ⟨70, 10, 1⟩] := by
  decide

/-- C10: the table declares destroy-protection whenever `preventDestroyTable`
is unset or `true`, and declares none exactly when it is explicitly `false`. -/
theorem claim_C10 (fuid : String) (config : Props)
    (hv : validateStreamConfig config.tableConfig = none) :
    tablePreventDestroyFlags (construct fuid config).1 =
      [resolvePreventDestroy config.preventDestroyTable] ∧
    ((config.preventDestroyTable = none ∨ config.preventDestroyTable = some true) →
      tablePreventDestroyFlags (construct fuid config).1 = [true]) ∧
    (config.preventDestroyTable = some false →
      tablePreventDestroyFlags (construct fuid config).1 = [false]) := by
  have h := (construct_table_projections fuid config hv).2
  refine ⟨h, ?_, ?_⟩
  · intro hm
    rcases hm with hm | hm <;> rw [h, hm] <;> rfl
  · intro hm
    rw [h, hm]
    rfl

/-- C10 witness: destroy-protection explicitly disabled. -/
theorem claim_C10_witness :
    (validateStreamConfig exNoProtect.tableConfig = none) ∧
    (tablePreventDestroyFlags (construct "dynamodb_table" exNoProtect).1 =
      [resolvePreventDestroy exNoProtect.preventDestroyTable] ∧
    ((exNoProtect.preventDestroyTable = none ∨
      exNoProtect.preventDestroyTable = some true) →
      tablePreventDestroyFlags (construct "dynamodb_table" exNoProtect).1 = [true]) ∧
    (exNoProtect.preventDestroyTable = some false →
      tablePreventDestroyFlags (construct "dynamodb_table" exNoProtect).1 = [false])) :=
  ⟨by decide, claim_C10 "dynamodb_table" exNoProtect (by decide)⟩

end DynamoDB

namespace DynamoDB

/-- C2: with the change-stream flag enabled, stream validation passes exactly
when a stream view type is present and one of the four valid values; when it
fails, construction stops with that descriptive error before any node is
declared.  Stream-disabled configurations are unconstrained by this check, and
a validated config (here: with no capacity specs) constructs successfully. -/
theorem claim_C2 (fuid : String) (config : Props) :
    (config.tableConfig.streamEnabled = some true →
      ((validateStreamConfig config.tableConfig = none) ↔
        ∃ v, config.tableConfig.streamViewType = some v ∧ v ∈ streamViewTypeValues)) ∧
    (∀ e, validateStreamConfig config.tableConfig = some e →
      construct fuid config = ([], some e) ∧
      (e = "you must specify a stream view type if streams are enabled" ∨
       e = "you must specify a valid stream view type")) ∧
    (config.tableConfig.streamEnabled ≠ some true →
      validateStreamConfig config.tableConfig = none) ∧
    (validateStreamConfig config.tableConfig = none →
      config.readCapacity = none → config.writeCapacity = none →
      (construct fuid config).2 = none) := by
  refine ⟨?_, ?_, ?_, ?_⟩
  · intro hs
    constructor
    · intro h
      rcases hsvt : config.tableConfig.streamViewType with _ | v
      · rw [validateStreamConfig, if_pos hs, hsvt] at h
        simp [truthyStr] at h
      · refine ⟨v, rfl, ?_⟩
        rw [validateStreamConfig, if_pos hs, hsvt] at h
        by_cases hne : v = ""
        · subst hne
          simp [truthyStr] at h
        · simp only [truthyStr, Option.getD] at h
          simp [hne] at h
          simpa using h
    · rintro ⟨v, hv, hmem⟩
      have hne : v ≠ "" := by
        rintro rfl
        simp [streamViewTypeValues] at hmem
      rw [validateStreamConfig, if_pos hs, hv]
      simp [truthyStr, hne, hmem]
  · intro e he
    refine ⟨by simp only [construct, he], ?_⟩
    rw [validateStreamConfig] at he
    by_cases h1 : config.tableConfig.streamEnabled = some true
    · rw [if_pos h1] at he
      by_cases h2 : (!truthyStr config.tableConfig.streamViewType) = true
      · rw [if_pos h2] at he
        injection he with he2
        exact Or.inl he2.symm
      · rw [if_neg h2] at he
        by_cases h3 : (!(streamViewTypeValues.contains
            (config.tableConfig.streamViewType.getD ""))) = true
        · rw [if_pos h3] at he
          injection he with he2
          exact Or.inr he2.symm
        · rw [if_neg h3] at he
          exact absurd he (by simp)
    · rw [if_neg h1] at he
      exact absurd he (by simp)
  · intro hne
    rw [validateStreamConfig, if_neg hne]
  · intro hv hr hw
    rw [construct_no_capacity fuid config hv hr hw]

end DynamoDB

/-! ### Load-balancer builder lemmas -/

namespace ALB

theorem data_slash : "/".data = ['/'] := rfl

theorem singleton_eq_slash (c : Char) : (String.singleton c = "/") ↔ c = '/' := by
  constructor
  · intro h
    have h2 := congrArg String.data h
    simpa [String.singleton, data_slash] using h2
  · rintro rfl
    rfl

theorem charAt_zero_slash (p : String) :
    (charAt p 0 = "/") ↔ p.data.head? = some '/' := by
  cases hd : p.data with
  | nil =>
    rw [charAt, hd]
    simp only [List.get?]
    constructor
    · intro h
      exact absurd h (by decide)
    · intro h
      simp at h
  | cons c cs =>
    rw [charAt, hd]
    simp only [List.get?]
    rw [singleton_eq_slash]
    simp

theorem charAt_last_slash (p : String) :
    (charAt p (p.length - 1) = "/") ↔ p.data.getLast? = some '/' := by
  have hlen : p.length = p.data.length := rfl
  cases hd : p.data with
  | nil =>
    rw [charAt, hlen, hd]
    simp only [List.length_nil, Nat.zero_sub, List.get?]
    constructor
    · intro h
      exact absurd h (by decide)
    · intro h
      simp at h
  | cons c cs =>
    rw [charAt, hlen, hd]
    have hget : (c :: cs).get? ((c :: cs).length - 1) = (c :: cs).getLast? := by
      rw [List.getLast?_eq_getElem?, List.get?_eq_getElem?]
    simp only [List.length_cons, Nat.add_sub_cancel] at hget ⊢
    rw [hget]
    cases hl : (c :: cs).getLast? with
    | none => simp at hl
    | some d =>
      simp only [singleton_eq_slash]
      simp

/-- The source's prefix rejection test holds exactly when the resolved prefix
begins or ends with a slash. -/
theorem logPfxInvalid_iff (p : String) :
    logPfxInvalid p = true ↔
      (p.data.head? = some '/' ∨ p.data.getLast? = some '/') := by
  rw [logPfxInvalid]
  rw [Bool.or_eq_true, decide_eq_true_iff, decide_eq_true_iff]
  rw [charAt_zero_slash, charAt_last_slash]
  exact or_comm

/-- An invalid resolved log prefix aborts construction right after the
security group is declared. -/
theorem construct_invalid_pfx (config : Props) (al : AccessLogsProps)
    (ha : config.accessLogs = some al)
    (hp : logPfxInvalid (al.pfx.getD (defaultLogPfx config.pfx)) = true) :
    construct config =
      ([securityGroupNode config], some "Logs prefix cannot start or end with '/'") := by
  simp only [construct, ha, hp]
  rfl

/-- With neither bucket choice configured, construction aborts with the
bucket-choice error after the security group is declared. -/
theorem construct_neither_bucket (config : Props) (al : AccessLogsProps)
    (ha : config.accessLogs = some al)
    (hp : logPfxInvalid (al.pfx.getD (defaultLogPfx config.pfx)) = false)
    (he : al.existingBucket = none) (hb : al.bucket = none) :
    construct config =
      ([securityGroupNode config],
       some "If you are configuring access logs you need to define either an existing bucket or a new one to store the logs") := by
  simp only [construct, ha, hp, getOrCreateBucket, he, hb]
  simp [Trace.seq]

/-- With an existing bucket configured (whatever `bucket` holds), construction
succeeds, looking the bucket up and using it for the access logs. -/
theorem construct_existing_bucket (config : Props) (al : AccessLogsProps) (eb : String)
    (ha : config.accessLogs = some al)
    (hp : logPfxInvalid (al.pfx.getD (defaultLogPfx config.pfx)) = false)
    (he : al.existingBucket = some eb) :
    construct config =
      ([securityGroupNode config,
        Node.dataAwsS3Bucket "log-bucket" eb,
        Node.alb "alb" config.alb6CharacterPfx [attrToken "alb_security_group" "id"]
          (config.internal.getD false) config.subnetIds
          (some ⟨eb, true, al.pfx.getD (defaultLogPfx config.pfx)⟩)], none) := by
  simp only [construct, ha, hp, getOrCreateBucket, he]
  simp [Trace.seq]

/-- With only a new bucket configured, construction succeeds, declaring the
bucket, the service-account lookup, the bucket policy document and the bucket
policy, and using the new bucket for the access logs. -/
theorem construct_new_bucket (config : Props) (al : AccessLogsProps) (b : String)
    (ha : config.accessLogs = some al)
    (hp : logPfxInvalid (al.pfx.getD (defaultLogPfx config.pfx)) = false)
    (he : al.existingBucket = none) (hb : al.bucket = some b) :
    construct config =
      ([securityGroupNode config,
        Node.s3Bucket "log-bucket" (some b) config.tags,
        Node.dataAwsElbServiceAccount "elb-service-account",
        Node.dataAwsIamPolicyDocument "iam-log-bucket-policy-document"
          [ { effect := "Allow"
              actions := ["s3:PutObject"]
              resources := ["arn:aws:s3:::" ++ b ++ "/*"]
              principals :=
                [("AWS", ["arn:aws:iam::" ++ attrToken "elb-service-account" "id" ++ ":root"])] } ],
        Node.s3BucketPolicy "log-bucket-policy" (some b)
          (attrToken "iam-log-bucket-policy-document" "json"),
        Node.alb "alb" config.alb6CharacterPfx [attrToken "alb_security_group" "id"]
          (config.internal.getD false) config.subnetIds
          (some ⟨b, true, al.pfx.getD (defaultLogPfx config.pfx)⟩)], none) := by
  simp only [construct, ha, hp, getOrCreateBucket, he, hb]
  simp [Trace.seq]

/-- With no access-log config, construction succeeds with no log block. -/
theorem construct_no_logs (config : Props) (ha : config.accessLogs = none) :
    construct config =
      ([securityGroupNode config,
        Node.alb "alb" config.alb6CharacterPfx [attrToken "alb_security_group" "id"]
          (config.internal.getD false) config.subnetIds none], none) := by
  simp only [construct, ha]
  rfl

end ALB

namespace ALB

/-- C3 counterexample: an access-log config with BOTH an existing bucket and a
new bucket set does not fail — construction succeeds and uses the existing
bucket (the code only rejects the neither-set case). -/
theorem claim_C3_counterexample :
    exBothBuckets.accessLogs =
      some { existingBucket := some "existing-bucket", bucket := some "new-bucket" } ∧
    (construct exBothBuckets).2 = none ∧
    albAccessLogsOf (construct exBothBuckets).1 =
      [some ⟨"existing-bucket", true, "server-logs/svc/alb"⟩] := by
  decide

/-- C3 (amended): with an access-log config and a well-formed prefix,
construction fails exactly when neither `existingBucket` nor `bucket` is set;
when `existingBucket` is set it is used (even if `bucket` is also set —
`existingBucket` takes precedence rather than failing); otherwise the new
`bucket` is used. -/
theorem claim_C3 (config : Props) (al : AccessLogsProps)
    (ha : config.accessLogs = some al)
    (hp : logPfxInvalid (al.pfx.getD (defaultLogPfx config.pfx)) = false) :
    (al.existingBucket = none → al.bucket = none →
      construct config =
        ([securityGroupNode config],
         some "If you are configuring access logs you need to define either an existing bucket or a new one to store the logs")) ∧
    (∀ eb, al.existingBucket = some eb →
      (construct config).2 = none ∧
      albAccessLogsOf (construct config).1 =
        [some ⟨eb, true, al.pfx.getD (defaultLogPfx config.pfx)⟩]) ∧
    (∀ b, al.existingBucket = none → al.bucket = some b →
      (construct config).2 = none ∧
      albAccessLogsOf (construct config).1 =
        [some ⟨b, true, al.pfx.getD (defaultLogPfx config.pfx)⟩]) := by
  refine ⟨?_, ?_, ?_⟩
  · intro he hb
    exact construct_neither_bucket config al ha hp he hb
  · intro eb he
    rw [construct_existing_bucket config al eb ha hp he]
    exact ⟨rfl, rfl⟩
  · intro b he hb
    rw [construct_new_bucket config al b ha hp he hb]
    exact ⟨rfl, rfl⟩

/-- C3 witness: the both-set configuration instantiates the amended claim. -/
theorem claim_C3_witness :
    (exBothBuckets.accessLogs =
      some ⟨some "existing-bucket", some "new-bucket", none⟩ ∧
     logPfxInvalid ((none : Option String).getD (defaultLogPfx exBothBuckets.pfx)) = false) ∧
    ((( ⟨some "existing-bucket", some "new-bucket", none⟩ : AccessLogsProps).existingBucket = none →
      (⟨some "existing-bucket", some "new-bucket", none⟩ : AccessLogsProps).bucket = none →
      construct exBothBuckets =
        ([securityGroupNode exBothBuckets],
         some "If you are configuring access logs you need to define either an existing bucket or a new one to store the logs")) ∧
    (∀ eb, (⟨some "existing-bucket", some "new-bucket", none⟩ : AccessLogsProps).existingBucket = some eb →
      (construct exBothBuckets).2 = none ∧
      albAccessLogsOf (construct exBothBuckets).1 =
        [some ⟨eb, true, (⟨some "existing-bucket", some "new-bucket", none⟩ : AccessLogsProps).pfx.getD (defaultLogPfx exBothBuckets.pfx)⟩]) ∧
    (∀ b, (⟨some "existing-bucket", some "new-bucket", none⟩ : AccessLogsProps).existingBucket = none →
      (⟨some "existing-bucket", some "new-bucket", none⟩ : AccessLogsProps).bucket = some b →
      (construct exBothBuckets).2 = none ∧
      albAccessLogsOf (construct exBothBuckets).1 =
        [some ⟨b, true, (⟨some "existing-bucket", some "new-bucket", none⟩ : AccessLogsProps).pfx.getD (defaultLogPfx exBothBuckets.pfx)⟩])) :=
  ⟨⟨rfl, by decide⟩,
   claim_C3 exBothBuckets ⟨some "existing-bucket", some "new-bucket", none⟩ rfl (by decide)⟩

/-- C6: with an access-log config, the log prefix defaults to
`server-logs/<lowercased prefix>/alb`; the rejection test holds exactly when
the resolved prefix begins or ends with a slash; when it holds construction
fails right after the security group with the descriptive error, and when it
does not hold construction never fails with that error. -/
theorem claim_C6 (config : Props) (al : AccessLogsProps)
    (ha : config.accessLogs = some al) :
    (al.pfx = none →
      al.pfx.getD (defaultLogPfx config.pfx) =
        "server-logs/" ++ strToLower config.pfx ++ "/alb") ∧
    (logPfxInvalid (al.pfx.getD (defaultLogPfx config.pfx)) = true ↔
      ((al.pfx.getD (defaultLogPfx config.pfx)).data.head? = some '/' ∨
       (al.pfx.getD (defaultLogPfx config.pfx)).data.getLast? = some '/')) ∧
    (logPfxInvalid (al.pfx.getD (defaultLogPfx config.pfx)) = true →
      construct config =
        ([securityGroupNode config], some "Logs prefix cannot start or end with '/'")) ∧
    (logPfxInvalid (al.pfx.getD (defaultLogPfx config.pfx)) = false →
      (construct config).2 ≠ some "Logs prefix cannot start or end with '/'") := by
  refine ⟨?_, logPfxInvalid_iff _, ?_, ?_⟩
  · intro h
    rw [h]
    rfl
  · intro hp
    exact construct_invalid_pfx config al ha hp
  · intro hp
    rcases he : al.existingBucket with _ | eb
    · rcases hb : al.bucket with _ | b
      · intro hcon
        rw [construct_neither_bucket config al ha hp he hb] at hcon
        exact absurd (show (some "If you are configuring access logs you need to define either an existing bucket or a new one to store the logs" : Option String) = some "Logs prefix cannot start or end with '/'" from hcon) (by decide)
      · rw [construct_new_bucket config al b ha hp he hb]
        simp
    · rw [construct_existing_bucket config al eb ha hp he]
      simp

/-- C6 witness: the prefix `/logs/` is rejected with the descriptive error. -/
theorem claim_C6_witness :
    (exSlashPfx.accessLogs =
      some ⟨some "existing-bucket", none, some "/logs/"⟩) ∧
    (((⟨some "existing-bucket", none, some "/logs/"⟩ : AccessLogsProps).pfx = none →
      (⟨some "existing-bucket", none, some "/logs/"⟩ : AccessLogsProps).pfx.getD
          (defaultLogPfx exSlashPfx.pfx) =
        "server-logs/" ++ strToLower exSlashPfx.pfx ++ "/alb") ∧
    (logPfxInvalid ((⟨some "existing-bucket", none, some "/logs/"⟩ : AccessLogsProps).pfx.getD
        (defaultLogPfx exSlashPfx.pfx)) = true ↔
      (((⟨some "existing-bucket", none, some "/logs/"⟩ : AccessLogsProps).pfx.getD
          (defaultLogPfx exSlashPfx.pfx)).data.head? = some '/' ∨
       ((⟨some "existing-bucket", none, some "/logs/"⟩ : AccessLogsProps).pfx.getD
          (defaultLogPfx exSlashPfx.pfx)).data.getLast? = some '/')) ∧
    (logPfxInvalid ((⟨some "existing-bucket", none, some "/logs/"⟩ : AccessLogsProps).pfx.getD
        (defaultLogPfx exSlashPfx.pfx)) = true →
      construct exSlashPfx =
        ([securityGroupNode exSlashPfx], some "Logs prefix cannot start or end with '/'")) ∧
    (logPfxInvalid ((⟨some "existing-bucket", none, some "/logs/"⟩ : AccessLogsProps).pfx.getD
        (defaultLogPfx exSlashPfx.pfx)) = false →
      (construct exSlashPfx).2 ≠ some "Logs prefix cannot start or end with '/'")) :=
  ⟨rfl, claim_C6 exSlashPfx ⟨some "existing-bucket", none, some "/logs/"⟩ rfl⟩

end ALB

/-! ### RDS builder lemmas -/

namespace RDS

theorem hexVal_hexDigit : ∀ n < 16, hexVal (hexDigit n) = n := by decide

theorem hexDigit_mem : ∀ n < 16, hexDigit n ∈ "0123456789abcdef".data := by decide

theorem hexEncode_data_cons (b : Nat) (bs : List Nat) :
    (hexEncode (b :: bs)).data =
      hexDigit (b / 16 % 16) :: hexDigit (b % 16) :: (hexEncode bs).data := by
  show ((b :: bs).flatMap fun x => [hexDigit (x / 16 % 16), hexDigit (x % 16)]) = _
  rw [List.flatMap_cons]
  rfl

theorem hexDecode_hexEncode (bs : List Nat) (h : ∀ b ∈ bs, b < 256) :
    hexDecode (hexEncode bs).data = bs := by
  induction bs with
  | nil => rfl
  | cons b bs ih =>
    rw [hexEncode_data_cons]
    show (hexVal (hexDigit (b / 16 % 16)) * 16 + hexVal (hexDigit (b % 16)))
        :: hexDecode (hexEncode bs).data = b :: bs
    rw [hexVal_hexDigit _ (Nat.mod_lt _ (by norm_num)),
      hexVal_hexDigit _ (Nat.mod_lt _ (by norm_num)),
      ih (fun x hx => h x (List.mem_cons_of_mem _ hx))]
    have hb : b < 256 := h b (List.mem_cons_self b bs)
    congr 1
    omega

theorem hexEncode_inj (bs1 bs2 : List Nat) (h1 : ∀ b ∈ bs1, b < 256)
    (h2 : ∀ b ∈ bs2, b < 256) (he : hexEncode bs1 = hexEncode bs2) : bs1 = bs2 := by
  have hd := congrArg String.data he
  calc bs1 = hexDecode (hexEncode bs1).data := (hexDecode_hexEncode bs1 h1).symm
    _ = hexDecode (hexEncode bs2).data := by rw [hd]
    _ = bs2 := hexDecode_hexEncode bs2 h2

theorem hexEncode_length (bs : List Nat) : (hexEncode bs).length = 2 * bs.length := by
  induction bs with
  | nil => rfl
  | cons b bs ih =>
    show (hexEncode (b :: bs)).data.length = 2 * (b :: bs).length
    rw [hexEncode_data_cons]
    have ih2 : (hexEncode bs).data.length = 2 * bs.length := ih
    simp only [List.length_cons, ih2]
    omega

theorem hexEncode_mem_hexChars (bs : List Nat) :
    ∀ c ∈ (hexEncode bs).data, c ∈ "0123456789abcdef".data := by
  intro c hc
  rw [show (hexEncode bs).data =
      bs.flatMap fun x => [hexDigit (x / 16 % 16), hexDigit (x % 16)] from rfl] at hc
  rw [List.mem_flatMap] at hc
  rcases hc with ⟨x, _, hcc⟩
  rcases List.mem_cons.mp hcc with rfl | hcc2
  · exact hexDigit_mem _ (Nat.mod_lt _ (by norm_num))
  · rcases List.mem_cons.mp hcc2 with rfl | hcc3
    · exact hexDigit_mem _ (Nat.mod_lt _ (by norm_num))
    · simp at hcc3

end RDS

namespace RDS

/-- C7: the cluster's master password is the caller-supplied value when
present; when absent it is the hex encoding of the 8 random bytes drawn for
this construction call — a 16-character string of hex digits — and distinct
byte draws yield distinct passwords (fresh per call). -/
theorem claim_C7 (attrs : ComputedAttrs) (randBytes : List Nat) (config : Props)
    (hlen : randBytes.length = 8) (hbytes : ∀ b ∈ randBytes, b < 256) :
    (∀ mp, config.rdsConfig.masterPassword = some mp →
      clusterPasswords (construct attrs randBytes config).1 = [mp]) ∧
    (config.rdsConfig.masterPassword = none →
      clusterPasswords (construct attrs randBytes config).1 = [hexEncode randBytes] ∧
      (hexEncode randBytes).length = 16 ∧
      (∀ c ∈ (hexEncode randBytes).data, c ∈ "0123456789abcdef".data)) ∧
    (∀ otherBytes : List Nat, (∀ b ∈ otherBytes, b < 256) →
      otherBytes ≠ randBytes → hexEncode otherBytes ≠ hexEncode randBytes) := by
  have hpw : clusterPasswords (construct attrs randBytes config).1 =
      [config.rdsConfig.masterPassword.getD (hexEncode randBytes)] := rfl
  refine ⟨?_, ?_, ?_⟩
  · intro mp hmp
    rw [hpw, hmp]
    rfl
  · intro hmp
    refine ⟨by rw [hpw, hmp]; rfl, ?_, hexEncode_mem_hexChars randBytes⟩
    rw [hexEncode_length, hlen]
  · intro ob hob hne hc
    exact hne (hexEncode_inj ob randBytes hob hbytes hc)

/-- C7 witness: a configuration with no caller-supplied master password and a
concrete byte draw. -/
theorem claim_C7_witness :
    (exBytes.length = 8 ∧ (∀ b ∈ exBytes, b < 256)) ∧
    ((∀ mp, exNoPassword.rdsConfig.masterPassword = some mp →
      clusterPasswords (construct exAttrs exBytes exNoPassword).1 = [mp]) ∧
    (exNoPassword.rdsConfig.masterPassword = none →
      clusterPasswords (construct exAttrs exBytes exNoPassword).1 = [hexEncode exBytes] ∧
      (hexEncode exBytes).length = 16 ∧
      (∀ c ∈ (hexEncode exBytes).data, c ∈ "0123456789abcdef".data)) ∧
    (∀ otherBytes : List Nat, (∀ b ∈ otherBytes, b < 256) →
      otherBytes ≠ exBytes → hexEncode otherBytes ≠ hexEncode exBytes)) :=
  ⟨⟨by decide, by decide⟩,
   claim_C7 exAttrs exBytes exNoPassword (by decide) (by decide)⟩

/-- C8: the secret payload's `database_url` is present exactly when the engine
is `aurora-mysql`, in which case it is
`mysql://<user>:<password>@<host>:<port>/<dbname>` built from the cluster's
resolved credentials, endpoint, derived port and database name; for every
other (or absent) engine the field is absent. -/
theorem claim_C8 (attrs : ComputedAttrs) (randBytes : List Nat) (config : Props) :
    secretPayloads (construct attrs randBytes config).1 =
      [{ engine := config.rdsConfig.engine.getD attrs.engineDefault
         host := attrs.endpoint
         username := config.rdsConfig.masterUsername
         password := config.rdsConfig.masterPassword.getD (hexEncode randBytes)
         dbname := config.rdsConfig.databaseName.getD attrs.databaseNameDefault
         port := derivePort config.rdsConfig.engine
         database_url :=
           if config.rdsConfig.engine = some "aurora-mysql" then
             some ("mysql://" ++ config.rdsConfig.masterUsername ++ ":"
               ++ config.rdsConfig.masterPassword.getD (hexEncode randBytes)
               ++ "@" ++ attrs.endpoint ++ ":"
               ++ toString (derivePort config.rdsConfig.engine)
               ++ "/" ++ config.rdsConfig.databaseName.getD attrs.databaseNameDefault)
           else none }] ∧
    (config.rdsConfig.engine ≠ some "aurora-mysql" →
      (secretPayloads (construct attrs randBytes config).1).map
        SecretPayload.database_url = [none]) := by
  constructor
  · rcases heng : config.rdsConfig.engine with _ | e
    · simp [construct, createRdsSecret, secretPayloads, heng, truthyStr]
    · by_cases he : e = "aurora-mysql"
      · subst he
        simp [construct, createRdsSecret, secretPayloads, heng, truthyStr]
      · simp [construct, createRdsSecret, secretPayloads, heng, truthyStr, he]
  · intro hne
    rcases heng : config.rdsConfig.engine with _ | e
    · simp [construct, createRdsSecret, secretPayloads, heng, truthyStr]
    · have he : e ≠ "aurora-mysql" := by
        intro hcon
        exact hne (by rw [heng, hcon])
      simp [construct, createRdsSecret, secretPayloads, heng, truthyStr, he]

/-- C9: the derived port is 5432 exactly when the engine name contains the
substring `postgresql` and 3306 otherwise (also when the engine is absent);
the security group's ingress is that port over TCP from the resolved VPC CIDR
only with unrestricted egress, and the secret payload's `port` equals the
derived port regardless of any `port` in the cluster config. -/
theorem claim_C9 (attrs : ComputedAttrs) (randBytes : List Nat) (config : Props) :
    (∀ e, config.rdsConfig.engine = some e →
      ((derivePort config.rdsConfig.engine = 5432 ↔ "postgresql".data <:+: e.data) ∧
       (¬ ("postgresql".data <:+: e.data) → derivePort config.rdsConfig.engine = 3306))) ∧
    (config.rdsConfig.engine = none → derivePort config.rdsConfig.engine = 3306) ∧
    securityGroupRules (construct attrs randBytes config).1 =
      [([⟨derivePort config.rdsConfig.engine, derivePort config.rdsConfig.engine, "tcp",
          [attrs.vpcCidrBlock]⟩],
        [⟨0, 0, "-1", ["0.0.0.0/0"]⟩])] ∧
    (secretPayloads (construct attrs randBytes config).1).map SecretPayload.port =
      [derivePort config.rdsConfig.engine] := by
  refine ⟨?_, ?_, rfl, ?_⟩
  · intro e he
    rw [he]
    unfold derivePort strIncludes
    by_cases hin : "postgresql".data <:+: e.data
    · simp [hin]
    · simp [hin]
  · intro h
    rw [h]
    rfl
  · rcases heng : config.rdsConfig.engine with _ | e
    · simp [construct, createRdsSecret, secretPayloads, heng, truthyStr]
    · by_cases he : e = "aurora-mysql"
      · subst he
        simp [construct, createRdsSecret, secretPayloads, heng, truthyStr]
      · simp [construct, createRdsSecret, secretPayloads, heng, truthyStr, he]

end RDS
